import Mathlib

/-!
Shallow embedding of the camera session / frame-cache subsystem and the
authenticated-client guard of `mini_miloco` (`src/mini_miloco/server.py`),
together with proofs settling the frozen claims about it.

Conventions of the embedding:
* wall-clock times are `Int` (seconds); payload bytes are `List Nat`;
* Python dicts are association lists with first-match lookup and
  update-in-place semantics (`alookup` / `aset` / `aremove`);
* Python sets of channels are duplicate-free insertion lists
  (`sinsert` / `sremove`);
* `ToolError` messages are the constructors of `ToolErr`;
* awaited external events (frame arrival, token refresh, the encoder
  subprocess) are passed in as explicit environment values.
-/

deriving instance DecidableEq for Except

namespace MiniMiloco

/-- Errors raised as `ToolError` in `server.py`, one constructor per
distinct message site used by the embedded operations. -/
inductive ToolErr where
  | authRequired
  | cameraNotFound
  | invalidChannel
  | pinMismatch
  | snapshotTimeout
  | cacheEmpty
  | cacheNotStarted
  | cacheWaitTimeout
  | recordTimeout
  | durationMustBePositive
  | fpsMustBePositive
  | bufferSizeMustBePositive
  | countMustBePositive
  | ffmpegUnavailable
  | noFramesCaptured
  | ffmpegFailed (msg : String)
deriving DecidableEq, Repr

/-- One decoded frame as stored in a cache buffer: payload bytes, capture
timestamp `ts`, and receipt time (`time.time()` at append). -/
structure Frame where
  data : List Nat
  ts : Int
  recv : Int
deriving DecidableEq, Repr

/-- The per-(did, channel) cache entry: `deque(maxlen=buffer_size)` of
frames plus the `updated_at` timestamp (`None` until the first append). -/
structure CacheBuf where
  frames : List Frame
  maxlen : Nat
  updated_at : Option Int
deriving DecidableEq, Repr

/-- The per-device entry of `camera_instances`: `started` flag, bound
`pin_code`, set of actively cached channels, and channel → registration id
map.  The underlying connection handle is implicit (owned 1-1 by the
entry). -/
structure CamState where
  started : Bool
  pin_code : Option String
  channels : List Int
  reg_ids : List (Int × Nat)
deriving DecidableEq, Repr

/-- The camera-side mutable state closed over by `run_server`:
`camera_cache`, `camera_cache_events` (keys that own an `asyncio.Event`),
`camera_instances`, and a counter modelling the registration ids handed
out by `register_decode_jpg_async`. -/
structure ServerState where
  camera_cache : List ((String × Int) × CacheBuf)
  camera_cache_events : List (String × Int)
  camera_instances : List (String × CamState)
  nextReg : Nat
deriving DecidableEq, Repr

/-- `CameraInfo` as used by the embedded operations (`channel_count` may be
`None` in the external library, hence `Option`). -/
structure CameraInfo where
  channel_count : Option Int
deriving DecidableEq, Repr

/-- Environment shared by the camera tools: whether `_ensure_client`
succeeds, and the camera map returned by `get_cameras_async`. -/
structure CamEnv where
  auth : Bool
  cameras : List (String × CameraInfo)
deriving DecidableEq, Repr

/-! ### Association-list model of Python dicts -/

/-- Dict lookup: first entry with the given key. -/
def alookup {κ α : Type} [DecidableEq κ] : List (κ × α) → κ → Option α
  | [], _ => none
  | (k, v) :: rest, key => if k = key then some v else alookup rest key

/-- Dict assignment `d[k] = v`: replace the first entry with the key, or
append a new entry. -/
def aset {κ α : Type} [DecidableEq κ] : List (κ × α) → κ → α → List (κ × α)
  | [], key, v => [(key, v)]
  | (k, w) :: rest, key, v =>
    if k = key then (key, v) :: rest else (k, w) :: aset rest key v

/-- Dict removal `d.pop(k, None)`. -/
def aremove {κ α : Type} [DecidableEq κ] (l : List (κ × α)) (k : κ) : List (κ × α) :=
  l.filter (fun p => p.1 ≠ k)

/-- Number of entries carrying a key (for "exactly one buffer" claims). -/
def countKey {κ α : Type} [DecidableEq κ] (l : List (κ × α)) (k : κ) : Nat :=
  (l.filter (fun p => p.1 = k)).length

/-- Python `set.add`. -/
def sinsert (l : List Int) (x : Int) : List Int :=
  if x ∈ l then l else l ++ [x]

/-- Python `set.discard`. -/
def sremove (l : List Int) (x : Int) : List Int :=
  l.filter (fun y => y ≠ x)

/-- Membership-preserving insert for the event-key list. -/
def einsert (l : List (String × Int)) (k : String × Int) : List (String × Int) :=
  if k ∈ l then l else l ++ [k]

/-- Removal for the event-key list. -/
def eremove (l : List (String × Int)) (k : String × Int) : List (String × Int) :=
  l.filter (fun y => y ≠ k)

/-- Python slicing `xs[-n:]` for `n ≥ 1` (the last `n` elements). -/
def lastN {α : Type} (n : Nat) (l : List α) : List α :=
  l.drop (l.length - n)

/-- Python truthiness of an optional string: `None` and `""` are falsy. -/
def truthy : Option String → Bool
  | none => false
  | some s => s ≠ ""

/-- Python `x or 1` applied to the optional `channel_count` (both `None`
and `0` fall back to `1`). -/
def orOne : Option Int → Int
  | none => 1
  | some n => if n = 0 then 1 else n

/-! ### Embedded operations -/

/-- The pin-binding and conditional-start tail of
`_get_or_create_camera_instance` (`server.py` lines 260-267): bind a
truthy pin when no truthy pin is bound, then start the connection when
`start_if_needed` and not already started. -/
def instanceUpdate (st : CamState) (pin_code : Option String)
    (start_if_needed : Bool) : CamState :=
  let st1 := if truthy pin_code = true ∧ truthy st.pin_code = false then
    { st with pin_code := pin_code } else st
  if start_if_needed = true ∧ st1.started = false then
    { st1 with started := true } else st1

/-- `server.py` lines 238-269, `_get_or_create_camera_instance`.  Creates
and stores a fresh entry when the device has none (note: the entry is
stored *before* the pin check, so it survives a `PinMismatch`); rejects a
truthy pin differing from a truthy bound pin; otherwise applies
`instanceUpdate` and stores the result.  Returns the updated
`camera_instances` map and the entry (or the error). -/
def _get_or_create_camera_instance (instances : List (String × CamState))
    (did : String) (pin_code : Option String) (start_if_needed : Bool) :
    List (String × CamState) × Except ToolErr CamState :=
  match alookup instances did with
  | none =>
    let st : CamState :=
      { started := false, pin_code := pin_code, channels := [], reg_ids := [] }
    if truthy pin_code = true ∧ truthy st.pin_code = true ∧ pin_code ≠ st.pin_code then
      (aset instances did st, .error .pinMismatch)
    else
      (aset (aset instances did st) did (instanceUpdate st pin_code start_if_needed),
       .ok (instanceUpdate st pin_code start_if_needed))
  | some st =>
    if truthy pin_code = true ∧ truthy st.pin_code = true ∧ pin_code ≠ st.pin_code then
      (instances, .error .pinMismatch)
    else
      (aset instances did (instanceUpdate st pin_code start_if_needed),
       .ok (instanceUpdate st pin_code start_if_needed))

/-- `server.py` lines 657-677, `stop_camera_cache`.  Missing buffer →
`not_running` with no state change; otherwise drops the buffer and its
event, unregisters the channel from the session, and stops the session
when its channel set becomes empty. -/
def stop_camera_cache (st : ServerState) (did : String) (channel : Int) :
    ServerState × String :=
  let key := (did, channel)
  match alookup st.camera_cache key with
  | none => (st, "not_running")
  | some _ =>
    let st1 : ServerState :=
      { st with
        camera_cache := aremove st.camera_cache key,
        camera_cache_events := eremove st.camera_cache_events key }
    match alookup st1.camera_instances did with
    | none => (st1, "stopped")
    | some cam =>
      if channel ∈ cam.channels then
        let cam1 : CamState :=
          { cam with
            reg_ids := aremove cam.reg_ids channel,
            channels := sremove cam.channels channel }
        let cam2 := if cam1.channels = [] then { cam1 with started := false } else cam1
        ({ st1 with camera_instances := aset st1.camera_instances did cam2 }, "stopped")
      else (st1, "stopped")

/-- The staleness test of `get_cached_camera_snapshot` (line 694):
`updated_at is None or (now - updated_at) > max_age`. -/
def cacheStale (cache : CacheBuf) (max_age now : Int) : Bool :=
  match cache.updated_at with
  | none => true
  | some u => max_age < now - u

/-- `server.py` lines 679-722, `get_cached_camera_snapshot`.  The
`waitOutcome` argument models the `asyncio.wait_for(event.wait(), ...)`:
`none` means the wait timed out (the buffer is unchanged), `some buf` is
the buffer contents after the event fired within `wait_timeout`. -/
def get_cached_camera_snapshot (st : ServerState)
    (waitOutcome : Option CacheBuf) (did : String) (channel : Int)
    (max_age wait_timeout now : Int) :
    ServerState × Except ToolErr Frame :=
  let key := (did, channel)
  match alookup st.camera_cache key with
  | none => (st, .error .cacheNotStarted)
  | some cache =>
    let stale : Bool := cacheStale cache max_age now
    if stale ∧ wait_timeout > 0 then
      match waitOutcome with
      | none => (st, .error .cacheWaitTimeout)
      | some cache2 =>
        let st1 : ServerState :=
          { st with camera_cache := aset st.camera_cache key cache2 }
        match cache2.frames.getLast? with
        | none => (st1, .error .cacheEmpty)
        | some fr => (st1, .ok fr)
    else
      match cache.frames.getLast? with
      | none => (st, .error .cacheEmpty)
      | some fr => (st, .ok fr)

/-- `server.py` lines 724-764, `get_cached_camera_frames`.  The count
check precedes the buffer-existence check; the effective count is
`min(count, 50)`; `list(frames)[-count:]` is `lastN`. -/
def get_cached_camera_frames (st : ServerState) (did : String)
    (channel : Int) (count : Int) : Except ToolErr (List Frame) :=
  if count ≤ 0 then .error .countMustBePositive
  else
    let count1 := min count 50
    let key := (did, channel)
    match alookup st.camera_cache key with
    | none => .error .cacheNotStarted
    | some cache =>
      let frames := lastN count1.toNat cache.frames
      if frames = [] then .error .cacheEmpty
      else .ok frames

/-- `server.py` lines 558-606, `_start_camera_cache`.  Ensures the client
and the camera, checks the channel bound, obtains/starts the session, and
— only when no buffer exists for the key — creates the buffer and its
event, registers the decode callback, and records the channel and
registration id.  Always answers status `"started"` on success. -/
def _start_camera_cache (env : CamEnv) (st : ServerState) (did : String)
    (channel : Int) (pin_code : Option String) (buffer_size : Int) :
    ServerState × Except ToolErr String :=
  if ¬ env.auth then (st, .error .authRequired)
  else
    match alookup env.cameras did with
    | none => (st, .error .cameraNotFound)
    | some camera_info =>
      if channel < 0 ∨ orOne camera_info.channel_count ≤ channel then
        (st, .error .invalidChannel)
      else
        match _get_or_create_camera_instance st.camera_instances did pin_code true with
        | (insts, .error e) => ({ st with camera_instances := insts }, .error e)
        | (insts, .ok cam) =>
          let key := (did, channel)
          match alookup st.camera_cache key with
          | none =>
            let buf : CacheBuf :=
              { frames := [], maxlen := buffer_size.toNat, updated_at := none }
            let reg_id := st.nextReg
            let cam1 : CamState :=
              { cam with
                channels := sinsert cam.channels channel,
                reg_ids := aset cam.reg_ids channel reg_id }
            ({ camera_cache := aset st.camera_cache key buf,
               camera_cache_events := einsert st.camera_cache_events key,
               camera_instances := aset insts did cam1,
               nextReg := st.nextReg + 1 }, .ok "started")
          | some _ =>
            ({ st with camera_instances := insts }, .ok "started")

/-- `server.py` lines 608-621, `start_camera_cache`: the `buffer_size`
validation wrapper around `_start_camera_cache`. -/
def start_camera_cache (env : CamEnv) (st : ServerState) (did : String)
    (channel : Int) (pin_code : Option String) (buffer_size : Int) :
    ServerState × Except ToolErr String :=
  if buffer_size ≤ 0 then (st, .error .bufferSizeMustBePositive)
  else _start_camera_cache env st did channel pin_code buffer_size

/-- Environment for `get_camera_snapshot`: `cachedWait` models the wait on
the cache event (`none` = timeout, `some buf` = buffer after the event
fired); `oneShot` models the one-shot future on the transient registration
(`none` = timeout, `some (data, ts)` = the first decoded frame). -/
structure SnapEnv where
  cachedWait : Option CacheBuf
  oneShot : Option (List Nat × Int)
deriving DecidableEq, Repr

/-- `server.py` lines 296-365, `get_camera_snapshot`.  Cached path: wait
on the event only when the buffer is empty, then return the newest frame.
Uncached path: transient registration, one-shot future with timeout, and
in `finally` the unregistration plus a session stop when the session has
no cached channels. -/
def get_camera_snapshot (env : CamEnv) (senv : SnapEnv) (st : ServerState)
    (did : String) (channel : Int) (pin_code : Option String) :
    ServerState × Except ToolErr (List Nat × Int) :=
  if ¬ env.auth then (st, .error .authRequired)
  else
    match alookup env.cameras did with
    | none => (st, .error .cameraNotFound)
    | some camera_info =>
      if channel < 0 ∨ orOne camera_info.channel_count ≤ channel then
        (st, .error .invalidChannel)
      else
        let key := (did, channel)
        match alookup st.camera_cache key with
        | some cache =>
          if cache.frames = [] then
            match senv.cachedWait with
            | none => (st, .error .snapshotTimeout)
            | some cache2 =>
              let st1 : ServerState :=
                { st with camera_cache := aset st.camera_cache key cache2 }
              match cache2.frames.getLast? with
              | none => (st1, .error .cacheEmpty)
              | some fr => (st1, .ok (fr.data, fr.ts))
          else
            match cache.frames.getLast? with
            | none => (st, .error .cacheEmpty)
            | some fr => (st, .ok (fr.data, fr.ts))
        | none =>
          match _get_or_create_camera_instance st.camera_instances did pin_code true with
          | (insts, .error e) => ({ st with camera_instances := insts }, .error e)
          | (insts, .ok cam) =>
            let cam2 := if cam.channels = [] then { cam with started := false } else cam
            let st1 : ServerState :=
              { st with
                camera_instances := aset insts did cam2,
                nextReg := st.nextReg + 1 }
            match senv.oneShot with
            | none => (st1, .error .snapshotTimeout)
            | some fr => (st1, .ok fr)

/-- Environment for `record_camera_clip`: arrival times of the decoded
frames (in arrival order; frame `k` fills slot `k`), the wall-clock time
when the loop starts awaiting slot 0, whether `ffmpeg` is on the path, and
the encoder outcome (`some msg` = non-zero exit with stderr `msg`). -/
structure RecordEnv where
  arrivals : List Int
  startTime : Int
  ffmpegAvailable : Bool
  ffmpegExit : Option String
deriving DecidableEq, Repr

/-- The slot-await loop of `record_camera_clip` (lines 416-418): waiting
for slot `i` starts when slot `i-1` completed; the slot succeeds when its
frame arrives within `timeout` of that moment.  Returns the number of
frame files written and whether all slots were filled. -/
def fillSlots : List Int → Int → Int → Nat → Nat × Bool
  | _, _, _, 0 => (0, true)
  | [], _, _, _ + 1 => (0, false)
  | a :: rest, t, timeout, n + 1 =>
    if a ≤ t + timeout then
      let r := fillSlots rest (max t a) timeout n
      (r.1 + 1, r.2)
    else (0, false)

/-- A frame source that delivers continuously for the purpose of the slot
loop: each arrival lands within `timeout` of the start of its slot's
wait. -/
def prompt : Int → Int → List Int → Bool
  | _, _, [] => true
  | t, timeout, a :: rest => a ≤ t + timeout && prompt (max t a) timeout rest

/-- `server.py` lines 367-464, `record_camera_clip`.  Validates duration
and fps first, then client/camera/channel, obtains the session (starting
it only when the channel is not cached), runs the slot loop writing one
frame file per filled slot, and in `finally` unregisters and stops the
session when the channel was uncached and the session has no cached
channels.  Afterwards: `ffmpeg` presence check, then the frame-file glob
check, then the encoder run.  The middle component is the number of frame
files written to the scratch directory. -/
def record_camera_clip (env : CamEnv) (renv : RecordEnv) (st : ServerState)
    (did : String) (channel : Int) (duration fps : Int)
    (pin_code : Option String) : ServerState × Nat × Except ToolErr Unit :=
  if duration ≤ 0 then (st, 0, .error .durationMustBePositive)
  else if fps ≤ 0 then (st, 0, .error .fpsMustBePositive)
  else if ¬ env.auth then (st, 0, .error .authRequired)
  else
    match alookup env.cameras did with
    | none => (st, 0, .error .cameraNotFound)
    | some camera_info =>
      if channel < 0 ∨ orOne camera_info.channel_count ≤ channel then
        (st, 0, .error .invalidChannel)
      else
        let key := (did, channel)
        let cached := (alookup st.camera_cache key).isSome
        match _get_or_create_camera_instance st.camera_instances did pin_code (!cached) with
        | (insts, .error e) => ({ st with camera_instances := insts }, 0, .error e)
        | (insts, .ok cam) =>
          let cam1 := if !cached ∧ ¬ cam.started then { cam with started := true } else cam
          let frame_count := (max 1 (duration * fps)).toNat
          let run := fillSlots renv.arrivals renv.startTime (duration + 5) frame_count
          let cam2 := if !cached ∧ cam1.channels = [] then
            { cam1 with started := false } else cam1
          let st1 : ServerState :=
            { st with
              camera_instances := aset insts did cam2,
              nextReg := st.nextReg + 1 }
          if ¬ run.2 then (st1, run.1, .error .recordTimeout)
          else if ¬ renv.ffmpegAvailable then (st1, run.1, .error .ffmpegUnavailable)
          else if run.1 = 0 then (st1, run.1, .error .noFramesCaptured)
          else
            match renv.ffmpegExit with
            | some msg => (st1, run.1, .error (.ffmpegFailed msg))
            | none => (st1, run.1, .ok ())

/-! ### The authenticated-client guard -/

/-- The `oauth_info` fields the guard reads: `expires_ts` (absent or
non-integer modelled as `none`) and the refresh token. -/
structure OAuthInfo where
  expires_ts : Option Int
  refresh_token : String
deriving DecidableEq, Repr

/-- The token-file payload (`uuid`, `cloud_server`, `redirect_uri`,
`oauth_info`, `saved_at`). -/
structure TokenPayload where
  uuid : String
  cloud_server : String
  redirect_uri : String
  oauth_info : OAuthInfo
  saved_at : Int
deriving DecidableEq, Repr

/-- The mutable auth state closed over by `run_server`: the token file
content (`none` = file absent; file-as-parsed-value), the in-memory
`payload`, the `client` (represented by the payload it was built from),
and the presence flags of the two MCP adapters. -/
structure AuthState where
  token_file : Option TokenPayload
  payload : Option TokenPayload
  client : Option TokenPayload
  miot_devices_mcp : Bool
  miot_scenes_mcp : Bool
deriving DecidableEq, Repr

/-- Environment of one `_ensure_client` call: the current time and the
outcome of `refresh_access_token_async` (`none` = the awaited refresh
raised). -/
structure AuthEnv where
  now : Int
  refresh_result : Option OAuthInfo
deriving DecidableEq, Repr

/-- `server.py` lines 71-75, `_needs_refresh`. -/
def _needs_refresh (oauth_info : OAuthInfo) (now refresh_window : Int) : Bool :=
  match oauth_info.expires_ts with
  | none => false
  | some ts => ts - now < refresh_window

/-- `server.py` lines 170-230, `_ensure_client` (the body under
`auth_lock`).  Missing token file → drop the payload and fail.  Lazily
load the payload and construct the client/adapters.  When the token needs
a refresh: on success rewrite payload and token file with the new
`oauth_info`; on failure leave the token file untouched, discard payload,
client and adapters, and fail with the auth-required error. -/
def _ensure_client (s : AuthState) (env : AuthEnv) (refresh_window : Int) :
    AuthState × Except ToolErr TokenPayload :=
  match s.token_file with
  | none => ({ s with payload := none }, .error .authRequired)
  | some f =>
    let pay := s.payload.getD f
    let built : TokenPayload × Bool × Bool :=
      match s.client with
      | some c => (c, s.miot_devices_mcp, s.miot_scenes_mcp)
      | none => (pay, true, true)
    let cl := built.1
    if _needs_refresh pay.oauth_info env.now refresh_window then
      match env.refresh_result with
      | none =>
        ({ token_file := s.token_file, payload := none, client := none,
           miot_devices_mcp := false, miot_scenes_mcp := false },
         .error .authRequired)
      | some new_info =>
        let pay1 : TokenPayload :=
          { pay with oauth_info := new_info, saved_at := env.now }
        ({ token_file := some pay1, payload := some pay1, client := some cl,
           miot_devices_mcp := built.2.1, miot_scenes_mcp := built.2.2 },
         .ok cl)
    else
      ({ token_file := s.token_file, payload := some pay, client := some cl,
         miot_devices_mcp := built.2.1, miot_scenes_mcp := built.2.2 },
       .ok cl)

/-- The frame-appending callback registered by `_start_camera_cache`
(`server.py` lines 585-592): append `(data, ts, now)` to the bounded
deque, set `updated_at`, and pulse the event. -/
def cache_on_jpg (cache : CacheBuf) (data : List Nat) (ts nowR : Int) : CacheBuf :=
  { cache with
    frames := lastN cache.maxlen (cache.frames ++ [⟨data, ts, nowR⟩]),
    updated_at := some nowR }

/-! ### Concrete states used by witnesses -/

/-- The empty registries at server start. -/
def initState : ServerState := ⟨[], [], [], 0⟩

/-- A concrete cached frame. -/
def frameA : Frame := ⟨[9], 100, 100⟩

/-- A concrete one-frame buffer last updated at time 100. -/
def bufA : CacheBuf := ⟨[frameA], 30, some 100⟩

/-- A state caching channel 0 of camera "c". -/
def stA : ServerState := ⟨[(("c", 0), bufA)], [("c", 0)], [], 0⟩

/-- A camera state for "c" holding the buffer of `stA`. -/
def camA : CamState := ⟨true, none, [0], [(0, 7)]⟩

/-- `stA` together with its session entry. -/
def stA1 : ServerState := ⟨[(("c", 0), bufA)], [("c", 0)], [("c", camA)], 8⟩

/-- An environment with one authenticated two-channel camera. -/
def envB : CamEnv := ⟨true, [("cam0", ⟨some 2⟩)]⟩

/-- A frame source delivering 20 frames at seconds 0..19. -/
def renvC : RecordEnv := ⟨(List.range 20).map (fun i => (i : Int)), 0, true, none⟩

/-- State after starting the cache on channels 0 and 1 of "cam0". -/
def stTwo : ServerState :=
  (start_camera_cache envB
    (start_camera_cache envB initState "cam0" 0 none 30).1 "cam0" 1 none 30).1

/-- `stTwo` after stopping the channel-0 cache. -/
def stAfter0 : ServerState := (stop_camera_cache stTwo "cam0" 0).1

/-- `stAfter0` after also stopping the channel-1 cache. -/
def stAfter01 : ServerState := (stop_camera_cache stAfter0 "cam0" 1).1

/-! ### Helper lemmas -/

theorem alookup_aset_self {κ α : Type} [DecidableEq κ] (l : List (κ × α)) (k : κ) (v : α) :
    alookup (aset l k v) k = some v := by
  induction l with
  | nil => simp [aset, alookup]
  | cons p rest ih =>
    obtain ⟨k1, v1⟩ := p
    by_cases hk : k1 = k
    · simp [aset, if_pos hk, alookup]
    · simp only [aset, if_neg hk]
      simp [alookup, if_neg hk, ih]

theorem aset_self {κ α : Type} [DecidableEq κ] (l : List (κ × α)) (k : κ) (v : α)
    (h : alookup l k = some v) : aset l k v = l := by
  induction l with
  | nil => simp [alookup] at h
  | cons p rest ih =>
    obtain ⟨k1, v1⟩ := p
    by_cases hk : k1 = k
    · simp only [alookup, if_pos hk, Option.some.injEq] at h
      simp [aset, if_pos hk, hk, h]
    · simp only [alookup, if_neg hk] at h
      simp only [aset, if_neg hk]
      rw [ih h]

theorem alookup_none_countKey {κ α : Type} [DecidableEq κ] (l : List (κ × α)) (k : κ)
    (h : alookup l k = none) : countKey l k = 0 := by
  induction l with
  | nil => simp [countKey]
  | cons p rest ih =>
    obtain ⟨k1, v1⟩ := p
    by_cases hk : k1 = k
    · simp [alookup, hk] at h
    · simp only [alookup, if_neg hk] at h
      simp only [countKey, List.filter_cons]
      rw [if_neg (by simp [hk])]
      exact ih h

theorem countKey_aset_none {κ α : Type} [DecidableEq κ] (l : List (κ × α)) (k : κ) (v : α)
    (h : alookup l k = none) : countKey (aset l k v) k = 1 := by
  induction l with
  | nil => simp [aset, countKey]
  | cons p rest ih =>
    obtain ⟨k1, v1⟩ := p
    by_cases hk : k1 = k
    · simp [alookup, hk] at h
    · simp only [alookup, if_neg hk] at h
      simp only [aset, if_neg hk, countKey, List.filter_cons]
      rw [if_neg (by simp [hk])]
      exact ih h

theorem countKey_aset_some {κ α : Type} [DecidableEq κ] (l : List (κ × α)) (k : κ) (v w : α)
    (h : alookup l k = some w) : countKey (aset l k v) k = countKey l k := by
  induction l with
  | nil => simp [alookup] at h
  | cons p rest ih =>
    obtain ⟨k1, v1⟩ := p
    by_cases hk : k1 = k
    · subst hk
      simp [aset, countKey, List.filter_cons]
    · simp only [alookup, if_neg hk] at h
      simp only [aset, if_neg hk, countKey, List.filter_cons]
      rw [if_neg (by simp [hk]), if_neg (by simp [hk])]
      exact ih h

theorem instanceUpdate_started (st : CamState) (pin : Option String) :
    (instanceUpdate st pin true).started = true := by
  cases hs : st.started <;>
    by_cases h1 : truthy pin = true ∧ truthy st.pin_code = false <;>
      simp [instanceUpdate, h1, hs]

theorem instanceUpdate_channels (st : CamState) (pin : Option String) (b : Bool) :
    (instanceUpdate st pin b).channels = st.channels := by
  simp only [instanceUpdate]
  split <;> split <;> simp

theorem instanceUpdate_regIds (st : CamState) (pin : Option String) (b : Bool) :
    (instanceUpdate st pin b).reg_ids = st.reg_ids := by
  simp only [instanceUpdate]
  split <;> split <;> simp

theorem instanceUpdate_pin_of_bound (st : CamState) (pin : Option String) (b : Bool)
    (h : truthy st.pin_code = true) :
    (instanceUpdate st pin b).pin_code = st.pin_code := by
  have h2 : ¬ (truthy pin = true ∧ truthy st.pin_code = false) := by simp [h]
  simp only [instanceUpdate, if_neg h2]
  split <;> simp

theorem instanceUpdate_pin_eq (st : CamState) (pin : Option String) (b : Bool)
    (hp : truthy pin = true)
    (h : truthy st.pin_code = true → st.pin_code = pin) :
    (instanceUpdate st pin b).pin_code = pin := by
  by_cases ht : truthy st.pin_code = true
  · rw [instanceUpdate_pin_of_bound _ _ _ ht, h ht]
  · have h2 : truthy pin = true ∧ truthy st.pin_code = false := ⟨hp, by simpa using ht⟩
    simp only [instanceUpdate, if_pos h2]
    split <;> simp

theorem instanceUpdate_id (st : CamState) (pin : Option String) (b : Bool)
    (hs : st.started = true)
    (hnb : ¬ (truthy pin = true ∧ truthy st.pin_code = false)) :
    instanceUpdate st pin b = st := by
  simp only [instanceUpdate, if_neg hnb]
  rw [if_neg (by simp [hs])]

theorem getOrCreate_error_is_pinMismatch (insts insts1 : List (String × CamState))
    (did : String) (pin : Option String) (b : Bool) (e : ToolErr)
    (h : _get_or_create_camera_instance insts did pin b = (insts1, .error e)) :
    e = .pinMismatch := by
  simp only [_get_or_create_camera_instance] at h
  split at h <;> split at h <;> simp_all

/-- Characterization of a successful `_get_or_create_camera_instance`
call: the returned entry is `instanceUpdate` of the looked-up (or freshly
created) entry, and it is stored under `did` in the returned map. -/
theorem getOrCreate_ok_inv (insts insts1 : List (String × CamState))
    (did : String) (pin : Option String) (b : Bool) (cam : CamState)
    (h : _get_or_create_camera_instance insts did pin b = (insts1, .ok cam)) :
    ∃ st base, cam = instanceUpdate st pin b ∧ insts1 = aset base did cam ∧
      ¬ (truthy pin = true ∧ truthy st.pin_code = true ∧ pin ≠ st.pin_code) ∧
      ((alookup insts did = some st ∧ base = insts) ∨
       (alookup insts did = none ∧
        st = ⟨false, pin, [], []⟩ ∧ base = aset insts did st)) := by
  simp only [_get_or_create_camera_instance] at h
  split at h
  · rename_i hnone
    split at h
    · simp at h
    · rename_i hmis
      simp only [Prod.mk.injEq, Except.ok.injEq] at h
      exact ⟨_, _, h.2.symm, by rw [← h.1, h.2], hmis, Or.inr ⟨hnone, rfl, rfl⟩⟩
  · rename_i st hsome
    split at h
    · simp at h
    · rename_i hmis
      simp only [Prod.mk.injEq, Except.ok.injEq] at h
      exact ⟨st, insts, h.2.symm, by rw [← h.1, h.2], hmis, Or.inl ⟨hsome, rfl⟩⟩

theorem getOrCreate_ok_lookup (insts insts1 : List (String × CamState))
    (did : String) (pin : Option String) (cam : CamState) (b : Bool)
    (h : _get_or_create_camera_instance insts did pin b = (insts1, .ok cam)) :
    alookup insts1 did = some cam := by
  obtain ⟨st, base, -, hset, -, -⟩ := getOrCreate_ok_inv _ _ _ _ _ _ h
  rw [hset]
  exact alookup_aset_self ..

theorem getOrCreate_ok_started (insts insts1 : List (String × CamState))
    (did : String) (pin : Option String) (cam : CamState)
    (h : _get_or_create_camera_instance insts did pin true = (insts1, .ok cam)) :
    cam.started = true := by
  obtain ⟨st, base, hcam, -, -, -⟩ := getOrCreate_ok_inv _ _ _ _ _ _ h
  rw [hcam]
  exact instanceUpdate_started ..

theorem getOrCreate_ok_pin (insts insts1 : List (String × CamState))
    (did : String) (pin : Option String) (cam : CamState) (b : Bool)
    (h : _get_or_create_camera_instance insts did pin b = (insts1, .ok cam))
    (hp : truthy pin = true) : cam.pin_code = pin := by
  obtain ⟨st, base, hcam, -, hmis, -⟩ := getOrCreate_ok_inv _ _ _ _ _ _ h
  rw [hcam]
  refine instanceUpdate_pin_eq _ _ _ hp (fun ht => ?_)
  by_contra hne
  exact hmis ⟨hp, ht, fun he => hne he.symm⟩

theorem getOrCreate_stable (insts : List (String × CamState)) (did : String)
    (pin : Option String) (cam : CamState)
    (hl : alookup insts did = some cam) (hs : cam.started = true)
    (hpin : truthy pin = true → cam.pin_code = pin) :
    _get_or_create_camera_instance insts did pin true = (insts, .ok cam) := by
  have hmis : ¬ (truthy pin = true ∧ truthy cam.pin_code = true ∧ pin ≠ cam.pin_code) := by
    rintro ⟨h1, -, h3⟩
    exact h3 (hpin h1).symm
  have hid : instanceUpdate cam pin true = cam := by
    refine instanceUpdate_id _ _ _ hs ?_
    rintro ⟨h1, h2⟩
    rw [hpin h1] at h2
    rw [h1] at h2
    exact Bool.noConfusion h2
  unfold _get_or_create_camera_instance
  rw [hl]
  simp only [if_neg hmis, hid, aset_self _ _ _ hl]

theorem fillSlots_of_prompt (n : Nat) (t timeout : Int) (arr : List Int)
    (hlen : n ≤ arr.length) (hp : prompt t timeout arr = true) :
    fillSlots arr t timeout n = (n, true) := by
  induction n generalizing arr t with
  | zero => cases arr <;> simp [fillSlots]
  | succ m ih =>
    cases arr with
    | nil => simp at hlen
    | cons a rest =>
      simp only [prompt, Bool.and_eq_true, decide_eq_true_eq] at hp
      simp only [fillSlots, if_pos hp.1]
      rw [ih (max t a) rest (by simpa using hlen) hp.2]

theorem fillSlots_no_frame (arr : List Int) (t timeout : Int) (n : Nat)
    (hn : n ≠ 0) (h : ∀ a ∈ arr.head?, t + timeout < a) :
    fillSlots arr t timeout n = (0, false) := by
  cases n with
  | zero => exact absurd rfl hn
  | succ m =>
    cases arr with
    | nil => simp [fillSlots]
    | cons a rest =>
      have ha : t + timeout < a := h a (by simp)
      simp only [fillSlots]
      rw [if_neg (by omega)]

theorem needs_refresh_mono (info : OAuthInfo) (now now2 w : Int)
    (h : _needs_refresh info now w = true) (hm : now ≤ now2) :
    _needs_refresh info now2 w = true := by
  obtain ⟨ets, rt⟩ := info
  cases ets with
  | none => simp [_needs_refresh] at h
  | some ts =>
    simp only [_needs_refresh, decide_eq_true_eq] at h ⊢
    omega

/-- Grounding for the reachable-buffer invariant used in C3: a freshly
created buffer has `updated_at = none`, and once the append callback has
run on a buffer with positive capacity its frames are non-empty and
`updated_at` is set; hence an empty buffer always has `updated_at =
none`. -/
theorem cache_on_jpg_not_empty (cache : CacheBuf) (data : List Nat) (ts nowR : Int)
    (h : 1 ≤ cache.maxlen) :
    (cache_on_jpg cache data ts nowR).frames ≠ [] ∧
    (cache_on_jpg cache data ts nowR).updated_at = some nowR := by
  refine ⟨?_, rfl⟩
  simp only [cache_on_jpg, lastN]
  intro hempty
  rw [List.drop_eq_nil_iff] at hempty
  simp at hempty
  omega

/-- A successful `start_camera_cache` run on an uncached (did, channel):
the buffer, its event and the channel registration are created. -/
theorem start_run_uncached (env : CamEnv) (s0 : ServerState) (did : String)
    (channel : Int) (pin : Option String) (buffer_size : Int)
    (info : CameraInfo) (insts : List (String × CamState)) (cam : CamState)
    (hbs : ¬ buffer_size ≤ 0) (hauth : env.auth = true)
    (hcams : alookup env.cameras did = some info)
    (hch : ¬ (channel < 0 ∨ orOne info.channel_count ≤ channel))
    (hg : _get_or_create_camera_instance s0.camera_instances did pin true
        = (insts, .ok cam))
    (hc0 : alookup s0.camera_cache (did, channel) = none) :
    start_camera_cache env s0 did channel pin buffer_size =
      (⟨aset s0.camera_cache (did, channel) ⟨[], buffer_size.toNat, none⟩,
        einsert s0.camera_cache_events (did, channel),
        aset insts did
          { cam with channels := sinsert cam.channels channel,
                     reg_ids := aset cam.reg_ids channel s0.nextReg },
        s0.nextReg + 1⟩, .ok "started") := by
  simp only [start_camera_cache, if_neg hbs, _start_camera_cache]
  rw [if_neg (by simp [hauth])]
  simp only [hcams]
  rw [if_neg hch]
  simp only [hg, hc0]

/-- A successful `start_camera_cache` run on an already cached
(did, channel): only the instance map (through
`_get_or_create_camera_instance`) is touched. -/
theorem start_run_cached (env : CamEnv) (s0 : ServerState) (did : String)
    (channel : Int) (pin : Option String) (buffer_size : Int)
    (info : CameraInfo) (insts : List (String × CamState)) (cam : CamState)
    (buf : CacheBuf)
    (hbs : ¬ buffer_size ≤ 0) (hauth : env.auth = true)
    (hcams : alookup env.cameras did = some info)
    (hch : ¬ (channel < 0 ∨ orOne info.channel_count ≤ channel))
    (hg : _get_or_create_camera_instance s0.camera_instances did pin true
        = (insts, .ok cam))
    (hc0 : alookup s0.camera_cache (did, channel) = some buf) :
    start_camera_cache env s0 did channel pin buffer_size =
      ({ s0 with camera_instances := insts }, .ok "started") := by
  simp only [start_camera_cache, if_neg hbs, _start_camera_cache]
  rw [if_neg (by simp [hauth])]
  simp only [hcams]
  rw [if_neg hch]
  simp only [hg, hc0]

/-! ### Claims -/

/-- C9: `stop_camera_cache` on a (did, channel) with no active frame
buffer returns the "not_running" status, raises no error, and leaves all
sessions, buffers, and registrations unchanged (the whole state is
returned untouched). -/
theorem stop_camera_cache_not_running (st : ServerState) (did : String) (channel : Int)
    (h : alookup st.camera_cache (did, channel) = none) :
    stop_camera_cache st did channel = (st, "not_running") := by
  simp only [stop_camera_cache, h]

/-- Witness for C9 at a concrete state with an unrelated running cache. -/
theorem stop_camera_cache_not_running_witness :
    stop_camera_cache stA1 "cam" 3 = (stA1, "not_running") :=
  stop_camera_cache_not_running stA1 "cam" 3 rfl

/-- C10: `get_cached_camera_frames` rejects every non-positive count with
the count-must-be-positive error before the cache-existence check (so a
non-positive count never yields `cacheNotStarted` or `cacheEmpty`), and
for positive count the effective count is `min count 50`: with a cached
buffer whose trailing slice is non-empty it returns the last
`min count 50` frames. -/
theorem get_cached_camera_frames_count (st : ServerState) (did : String)
    (channel : Int) (count : Int) :
    (count ≤ 0 → get_cached_camera_frames st did channel count
        = .error .countMustBePositive) ∧
    (0 < count → ∀ cache, alookup st.camera_cache (did, channel) = some cache →
      lastN (min count 50).toNat cache.frames ≠ [] →
      get_cached_camera_frames st did channel count
        = .ok (lastN (min count 50).toNat cache.frames)) := by
  constructor
  · intro hc
    simp [get_cached_camera_frames, hc]
  · intro hc cache hcache hne
    simp only [get_cached_camera_frames]
    rw [if_neg (by omega)]
    simp only [hcache]
    rw [if_neg hne]

/-- Witness for C10: count -3 is rejected even though the buffer exists,
and count 100 is capped to the last 50 frames. -/
theorem get_cached_camera_frames_count_witness :
    get_cached_camera_frames stA "c" 0 (-3) = .error .countMustBePositive ∧
    get_cached_camera_frames stA "c" 0 100 = .ok (lastN (min (100:Int) 50).toNat bufA.frames) :=
  ⟨(get_cached_camera_frames_count stA "c" 0 (-3)).1 (by decide),
   (get_cached_camera_frames_count stA "c" 0 100).2 (by decide) bufA rfl (by decide)⟩

/-- C3: `get_cached_camera_snapshot` — no buffer fails with
cache-not-started; a buffered frame with `wait_timeout = 0` is returned
even when stale (staleness alone never fails); an empty-or-stale buffer
with `wait_timeout > 0` whose wait times out fails with
cache-wait-timeout (an empty reachable buffer has `updated_at = none`,
supplied as a hypothesis here and grounded by `cache_on_jpg_not_empty`). -/
theorem get_cached_camera_snapshot_semantics (st : ServerState)
    (w : Option CacheBuf) (did : String) (channel : Int)
    (max_age wait_timeout now : Int) :
    (alookup st.camera_cache (did, channel) = none →
      get_cached_camera_snapshot st w did channel max_age wait_timeout now
        = (st, .error .cacheNotStarted)) ∧
    (∀ cache fr, alookup st.camera_cache (did, channel) = some cache →
      cache.frames.getLast? = some fr → wait_timeout = 0 →
      get_cached_camera_snapshot st w did channel max_age wait_timeout now
        = (st, .ok fr)) ∧
    (∀ cache, alookup st.camera_cache (did, channel) = some cache →
      (cache.frames = [] ∨ cacheStale cache max_age now = true) →
      (cache.frames = [] → cache.updated_at = none) →
      0 < wait_timeout → w = none →
      get_cached_camera_snapshot st w did channel max_age wait_timeout now
        = (st, .error .cacheWaitTimeout)) := by
  refine ⟨?_, ?_, ?_⟩
  · intro h
    simp [get_cached_camera_snapshot, h]
  · intro cache fr hcache hlast hwt
    simp only [get_cached_camera_snapshot, hcache]
    rw [if_neg (by simp [hwt])]
    rw [hlast]
  · intro cache hcache hcond hinv hwt hw
    have hstale : cacheStale cache max_age now = true := by
      rcases hcond with he | hs
      · simp [cacheStale, hinv he]
      · exact hs
    simp only [get_cached_camera_snapshot, hcache]
    rw [if_pos ⟨hstale, hwt⟩, hw]

/-- Witness for C3 at a buffer that is 100 seconds stale. -/
theorem get_cached_camera_snapshot_semantics_witness :
    get_cached_camera_snapshot stA none "x" 0 5 0 200 = (stA, .error .cacheNotStarted) ∧
    get_cached_camera_snapshot stA none "c" 0 5 0 200 = (stA, .ok frameA) ∧
    get_cached_camera_snapshot stA none "c" 0 5 3 200 = (stA, .error .cacheWaitTimeout) :=
  ⟨(get_cached_camera_snapshot_semantics stA none "x" 0 5 0 200).1 rfl,
   (get_cached_camera_snapshot_semantics stA none "c" 0 5 0 200).2.1 bufA frameA rfl rfl rfl,
   (get_cached_camera_snapshot_semantics stA none "c" 0 5 3 200).2.2 bufA rfl
     (Or.inr (by decide)) (by decide) (by decide) rfl⟩

/-- C2: a failed token refresh inside `_ensure_client` leaves the token
file content exactly as before (no partial write), discards the in-memory
payload and client, fails with the auth-required error, and a subsequent
call whose refresh also fails (at a later or equal time) fails with the
auth-required error again. -/
theorem ensure_client_refresh_failure (s : AuthState) (env env2 : AuthEnv)
    (refresh_window : Int) (f : TokenPayload)
    (hf : s.token_file = some f)
    (hpay : s.payload = none ∨ s.payload = some f)
    (href : _needs_refresh f.oauth_info env.now refresh_window = true)
    (hfail : env.refresh_result = none)
    (hfail2 : env2.refresh_result = none)
    (hmono : env.now ≤ env2.now) :
    (_ensure_client s env refresh_window).1.token_file = s.token_file ∧
    (_ensure_client s env refresh_window).1.payload = none ∧
    (_ensure_client s env refresh_window).1.client = none ∧
    (_ensure_client s env refresh_window).2 = .error .authRequired ∧
    (_ensure_client (_ensure_client s env refresh_window).1 env2 refresh_window).2
      = .error .authRequired := by
  have hpayv : s.payload.getD f = f := by rcases hpay with h | h <;> simp [h]
  have h1 : _ensure_client s env refresh_window =
      ({ token_file := s.token_file, payload := none, client := none,
         miot_devices_mcp := false, miot_scenes_mcp := false },
       .error .authRequired) := by
    simp only [_ensure_client, hf, hpayv]
    rw [if_pos href, hfail]
  have href2 : _needs_refresh f.oauth_info env2.now refresh_window = true :=
    needs_refresh_mono _ _ _ _ href hmono
  have h2 : (_ensure_client
      ({ token_file := s.token_file, payload := none, client := none,
         miot_devices_mcp := false, miot_scenes_mcp := false } : AuthState)
      env2 refresh_window).2 = .error .authRequired := by
    simp only [_ensure_client, hf, Option.getD_none]
    rw [if_pos href2, hfail2]
  rw [h1]
  exact ⟨rfl, rfl, rfl, rfl, h2⟩

/-- Witness for C2: a token expiring at 1000 checked at 900 with a 3600
second refresh window, with the refresh raising on both calls. -/
theorem ensure_client_refresh_failure_witness :
    (_ensure_client ⟨some ⟨"u", "cn", "r", ⟨some 1000, "rt"⟩, 5⟩,
        some ⟨"u", "cn", "r", ⟨some 1000, "rt"⟩, 5⟩,
        some ⟨"u", "cn", "r", ⟨some 1000, "rt"⟩, 5⟩, true, true⟩
      ⟨900, none⟩ 3600).2 = .error .authRequired ∧
    (_ensure_client
      (_ensure_client ⟨some ⟨"u", "cn", "r", ⟨some 1000, "rt"⟩, 5⟩,
          some ⟨"u", "cn", "r", ⟨some 1000, "rt"⟩, 5⟩,
          some ⟨"u", "cn", "r", ⟨some 1000, "rt"⟩, 5⟩, true, true⟩
        ⟨900, none⟩ 3600).1
      ⟨950, none⟩ 3600).2 = .error .authRequired := by
  have h := ensure_client_refresh_failure
    ⟨some ⟨"u", "cn", "r", ⟨some 1000, "rt"⟩, 5⟩,
     some ⟨"u", "cn", "r", ⟨some 1000, "rt"⟩, 5⟩,
     some ⟨"u", "cn", "r", ⟨some 1000, "rt"⟩, 5⟩, true, true⟩
    ⟨900, none⟩ ⟨950, none⟩ 3600 ⟨"u", "cn", "r", ⟨some 1000, "rt"⟩, 5⟩
    rfl (Or.inr rfl) (by decide) rfl rfl (by decide)
  exact ⟨h.2.2.2.1, h.2.2.2.2⟩

/-- C8 counterexample: with pin "a" bound to the session, a later call
supplying the distinct pin "" does not fail with the pin-mismatch error
(Python truthiness skips the check for empty strings) — it succeeds and
even leaves the empty pin unbound. -/
theorem pin_mismatch_counterexample :
    ("" : String) ≠ "a" ∧
    (_get_or_create_camera_instance [("d", ⟨false, some "a", [], []⟩)] "d"
        (some "") true).2 = .ok ⟨true, some "a", [], []⟩ :=
  ⟨by decide, by decide⟩

/-- C8 (amended): restricted to non-empty pin codes the claim holds: a
session with non-empty bound pin `p` rejects every call supplying a
distinct non-empty pin `q` with the pin-mismatch error, and the bound pin
is never rebound — every successful call returns an entry still carrying
pin `p`. -/
theorem pin_mismatch_nonempty_pins (insts : List (String × CamState)) (did : String)
    (cam : CamState) (p q : String) (b : Bool)
    (hl : alookup insts did = some cam)
    (hbound : cam.pin_code = some p) (hp : p ≠ "") (hq : q ≠ "") (hne : q ≠ p) :
    (_get_or_create_camera_instance insts did (some q) b).2 = .error .pinMismatch ∧
    (∀ pin insts1 cam1,
      _get_or_create_camera_instance insts did pin b = (insts1, .ok cam1) →
      cam1.pin_code = some p) := by
  constructor
  · simp only [_get_or_create_camera_instance, hl]
    rw [if_pos ⟨by simpa [truthy] using hq,
        by rw [hbound]; simpa [truthy] using hp,
        by rw [hbound]; simpa using hne⟩]
  · intro pin insts1 cam1 h
    obtain ⟨st, base, hcam, -, -, hcase⟩ := getOrCreate_ok_inv _ _ _ _ _ _ h
    rcases hcase with ⟨hsome, -⟩ | ⟨hnone, -, -⟩
    · rw [hl] at hsome
      injection hsome with hsome
      subst hsome
      rw [hcam, instanceUpdate_pin_of_bound _ _ _ (by simp [truthy, hbound, hp]),
        hbound]
    · rw [hl] at hnone
      exact absurd hnone (by simp)

/-- Witness for C8 (amended) with bound pin "a" and supplied pin "b". -/
theorem pin_mismatch_nonempty_pins_witness :
    (_get_or_create_camera_instance [("d", ⟨false, some "a", [], []⟩)] "d"
        (some "b") true).2 = .error .pinMismatch :=
  (pin_mismatch_nonempty_pins [("d", ⟨false, some "a", [], []⟩)] "d"
    ⟨false, some "a", [], []⟩ "a" "b" true rfl rfl (by decide) (by decide)
    (by decide)).1

/-- C1 counterexample: a clip-recording call whose frame source produces
zero frames within `duration + 5` seconds fails with the record-timeout
error (zero frames written), not with the no-frames-captured error — the
no-frames check sits after the slot loop and is not reached. -/
theorem record_zero_frames_counterexample :
    (record_camera_clip envB ⟨[], 0, true, none⟩ initState "cam0" 0 2 10 none).2
      = (0, .error .recordTimeout) ∧
    (record_camera_clip envB ⟨[], 0, true, none⟩ initState "cam0" 0 2 10 none).2.2
      ≠ .error .noFramesCaptured :=
  ⟨by decide, by decide⟩

/-- C1 (amended): whenever the validations pass and the session is
obtained, a frame source producing zero frames within `duration + 5`
seconds of the start of the first slot's wait makes `record_camera_clip`
fail with the record-timeout error, with zero frame files written. -/
theorem record_zero_frames_times_out (env : CamEnv) (renv : RecordEnv)
    (st : ServerState) (did : String) (channel : Int) (duration fps : Int)
    (pin : Option String) (info : CameraInfo)
    (insts : List (String × CamState)) (cam : CamState)
    (hauth : env.auth = true)
    (hcam : alookup env.cameras did = some info)
    (hch : ¬ (channel < 0 ∨ orOne info.channel_count ≤ channel))
    (hd : 0 < duration) (hf : 0 < fps)
    (hg : _get_or_create_camera_instance st.camera_instances did pin
        (!(alookup st.camera_cache (did, channel)).isSome) = (insts, .ok cam))
    (hno : ∀ a ∈ renv.arrivals.head?, renv.startTime + (duration + 5) < a) :
    (record_camera_clip env renv st did channel duration fps pin).2
      = (0, .error .recordTimeout) := by
  have hfc : (max 1 (duration * fps)).toNat ≠ 0 := by
    have h1 : (1 : Int) ≤ max 1 (duration * fps) := le_max_left ..
    omega
  have hrun : fillSlots renv.arrivals renv.startTime (duration + 5)
      (max 1 (duration * fps)).toNat = (0, false) :=
    fillSlots_no_frame _ _ _ _ hfc hno
  simp only [record_camera_clip]
  rw [if_neg (by omega), if_neg (by omega), if_neg (by simp [hauth])]
  simp only [hcam]
  rw [if_neg hch]
  simp only [hg, hrun]
  simp

/-- Witness for C1 (amended): an empty frame source at channel 1. -/
theorem record_zero_frames_times_out_witness :
    (record_camera_clip envB ⟨[], 0, true, none⟩ initState "cam0" 1 2 10 none).2
      = (0, .error .recordTimeout) :=
  record_zero_frames_times_out envB ⟨[], 0, true, none⟩ initState "cam0" 1 2 10
    none ⟨some 2⟩ [("cam0", ⟨true, none, [], []⟩)] ⟨true, none, [], []⟩
    rfl rfl (by decide) (by decide) (by decide) rfl
    (by intro a ha; simp at ha)

/-- C4: a camera session is stopped by `stop_camera_cache` (its `started`
flag made false) exactly when its set of active channel registrations
becomes empty: the updated entry satisfies `started = false` iff its
channel set became empty; and in the concrete scenario, with caching
started on channels 0 and 1 of "cam0", stopping channel 0 leaves the
session started and then stopping channel 1 stops it (channel set
empty). -/
theorem session_stop_iff_registrations_empty :
    (∀ (st : ServerState) (did : String) (channel : Int) (buf : CacheBuf) (cam : CamState),
      alookup st.camera_cache (did, channel) = some buf →
      alookup st.camera_instances did = some cam →
      channel ∈ cam.channels → cam.started = true →
      ∃ cam2, alookup (stop_camera_cache st did channel).1.camera_instances did = some cam2 ∧
        cam2.channels = sremove cam.channels channel ∧
        (cam2.started = false ↔ cam2.channels = [])) ∧
    (alookup stTwo.camera_instances "cam0").map CamState.started = some true ∧
    (alookup stAfter0.camera_instances "cam0").map CamState.started = some true ∧
    (alookup stAfter01.camera_instances "cam0").map CamState.started = some false ∧
    (alookup stAfter01.camera_instances "cam0").map CamState.channels = some [] := by
  refine ⟨?_, by decide, by decide, by decide, by decide⟩
  intro st did channel buf cam hbuf hcam hmem hstarted
  simp only [stop_camera_cache, hbuf, hcam]
  rw [if_pos hmem]
  refine ⟨_, alookup_aset_self .., ?_, ?_⟩
  · by_cases hrem : sremove cam.channels channel = []
    · rw [if_pos hrem]
    · rw [if_neg hrem]
  · by_cases hrem : sremove cam.channels channel = []
    · rw [if_pos hrem]
      simp [hrem]
    · rw [if_neg hrem]
      simp [hstarted, hrem]

/-- Witness for C4 (general part) at a concrete one-channel session. -/
theorem session_stop_iff_registrations_empty_witness :
    ∃ cam2, alookup (stop_camera_cache stA1 "c" 0).1.camera_instances "c" = some cam2 ∧
      cam2.channels = sremove camA.channels 0 ∧
      (cam2.started = false ↔ cam2.channels = []) :=
  (session_stop_iff_registrations_empty).1 stA1 "c" 0 bufA camA rfl rfl
    (by decide) rfl

/-- C7: `record_camera_clip` rejects every non-positive duration and every
non-positive fps with an error before doing any work (state unchanged,
zero files written), and — once the validations pass and the session is
obtained — a frame source producing frames continuously makes it write
exactly `max 1 (duration * fps)` frame files to the scratch directory
before the encoder is invoked (the count holds whatever the encoder
environment is). -/
theorem record_validation_and_frame_count (env : CamEnv) (renv : RecordEnv)
    (st : ServerState) (did : String) (channel : Int) (duration fps : Int)
    (pin : Option String) :
    (duration ≤ 0 → record_camera_clip env renv st did channel duration fps pin
        = (st, 0, .error .durationMustBePositive)) ∧
    (0 < duration → fps ≤ 0 →
      record_camera_clip env renv st did channel duration fps pin
        = (st, 0, .error .fpsMustBePositive)) ∧
    (0 < duration → 0 < fps → env.auth = true →
      ∀ info, alookup env.cameras did = some info →
      ¬ (channel < 0 ∨ orOne info.channel_count ≤ channel) →
      ∀ insts cam, _get_or_create_camera_instance st.camera_instances did pin
          (!(alookup st.camera_cache (did, channel)).isSome) = (insts, .ok cam) →
      prompt renv.startTime (duration + 5) renv.arrivals = true →
      (max 1 (duration * fps)).toNat ≤ renv.arrivals.length →
      (record_camera_clip env renv st did channel duration fps pin).2.1
        = (max 1 (duration * fps)).toNat) := by
  refine ⟨?_, ?_, ?_⟩
  · intro hd
    simp [record_camera_clip, hd]
  · intro hd hf
    simp only [record_camera_clip]
    rw [if_neg (by omega), if_pos hf]
  · intro hd hf hauth info hcam hch insts cam hg hprompt hlen
    have hrun : fillSlots renv.arrivals renv.startTime (duration + 5)
        (max 1 (duration * fps)).toNat = ((max 1 (duration * fps)).toNat, true) :=
      fillSlots_of_prompt _ _ _ _ hlen hprompt
    simp only [record_camera_clip]
    rw [if_neg (by omega), if_neg (by omega), if_neg (by simp [hauth])]
    simp only [hcam]
    rw [if_neg hch]
    simp only [hg, hrun]
    rw [if_neg (by simp)]
    split
    · rfl
    · split
      · rfl
      · split <;> rfl

/-- Witness for C7: duration 2 and fps 10 with a continuous 20-frame
source writes exactly 20 files; duration -1 and fps 0 are rejected. -/
theorem record_validation_and_frame_count_witness :
    record_camera_clip envB renvC initState "cam0" 0 (-1) 10 none
      = (initState, 0, .error .durationMustBePositive) ∧
    record_camera_clip envB renvC initState "cam0" 0 2 0 none
      = (initState, 0, .error .fpsMustBePositive) ∧
    (record_camera_clip envB renvC initState "cam0" 0 2 10 none).2.1 = 20 := by
  refine ⟨(record_validation_and_frame_count envB renvC initState "cam0" 0 (-1) 10
      none).1 (by decide),
    (record_validation_and_frame_count envB renvC initState "cam0" 0 2 0
      none).2.1 (by decide) (by decide), ?_⟩
  have h := (record_validation_and_frame_count envB renvC initState "cam0" 0 2 10
      none).2.2 (by decide) (by decide) rfl ⟨some 2⟩ rfl (by decide)
    [("cam0", ⟨true, none, [], []⟩)] ⟨true, none, [], []⟩ rfl (by decide) (by decide)
  exact h

/-- C5: `start_camera_cache` is idempotent per (did, channel): after any
successful call, an immediate second call with the same arguments returns
the state unchanged with the "started" status; and starting from a state
with no buffer for (did, channel) and no session for the device, the call
leaves exactly one frame buffer for the key and exactly one channel
registration (the channel set is exactly `[channel]` with a single
registration id). -/
theorem start_camera_cache_idempotent (env : CamEnv) (s0 : ServerState)
    (did : String) (channel : Int) (pin : Option String) (buffer_size : Int)
    (status : String)
    (h1 : (start_camera_cache env s0 did channel pin buffer_size).2 = .ok status) :
    start_camera_cache env (start_camera_cache env s0 did channel pin buffer_size).1
        did channel pin buffer_size
      = ((start_camera_cache env s0 did channel pin buffer_size).1, .ok "started") ∧
    (alookup s0.camera_cache (did, channel) = none →
      alookup s0.camera_instances did = none →
      countKey (start_camera_cache env s0 did channel pin buffer_size).1.camera_cache
          (did, channel) = 1 ∧
      ∃ cam1,
        alookup
            (start_camera_cache env s0 did channel pin buffer_size).1.camera_instances
            did = some cam1 ∧
        countKey
            (start_camera_cache env s0 did channel pin buffer_size).1.camera_instances
            did = 1 ∧
        cam1.channels = [channel] ∧ cam1.reg_ids = [(channel, s0.nextReg)]) := by
  by_cases hbs : buffer_size ≤ 0
  · rw [start_camera_cache, if_pos hbs] at h1
    exact absurd h1 (by simp)
  by_cases hauth : env.auth = true
  swap
  · rw [start_camera_cache, if_neg hbs, _start_camera_cache, if_pos hauth] at h1
    exact absurd h1 (by simp)
  rcases hcams : alookup env.cameras did with - | info
  · rw [start_camera_cache, if_neg hbs, _start_camera_cache,
      if_neg (not_not_intro hauth)] at h1
    simp only [hcams] at h1
    exact absurd h1 (by simp)
  by_cases hch : channel < 0 ∨ orOne info.channel_count ≤ channel
  · rw [start_camera_cache, if_neg hbs, _start_camera_cache,
      if_neg (not_not_intro hauth)] at h1
    simp only [hcams] at h1
    rw [if_pos hch] at h1
    exact absurd h1 (by simp)
  rcases hg : _get_or_create_camera_instance s0.camera_instances did pin true
    with ⟨insts, r⟩
  rcases r with e | cam
  · rw [start_camera_cache, if_neg hbs, _start_camera_cache,
      if_neg (not_not_intro hauth)] at h1
    simp only [hcams] at h1
    rw [if_neg hch] at h1
    simp only [hg] at h1
    exact absurd h1 (by simp)
  have hstarted : cam.started = true := getOrCreate_ok_started _ _ _ _ _ hg
  have hpinc : truthy pin = true → cam.pin_code = pin :=
    fun hp => getOrCreate_ok_pin _ _ _ _ _ _ hg hp
  rcases hc0 : alookup s0.camera_cache (did, channel) with - | buf0
  · -- the first call created the buffer and the registration
    have hrun1 := start_run_uncached env s0 did channel pin buffer_size info insts
      cam hbs hauth hcams hch hg hc0
    have hlook1 : alookup
        (aset insts did
          { cam with channels := sinsert cam.channels channel,
                     reg_ids := aset cam.reg_ids channel s0.nextReg }) did
        = some { cam with channels := sinsert cam.channels channel,
                          reg_ids := aset cam.reg_ids channel s0.nextReg } :=
      alookup_aset_self ..
    have hstable := getOrCreate_stable _ did pin _ hlook1 hstarted hpinc
    have hclook : alookup
        (aset s0.camera_cache (did, channel)
          (⟨[], buffer_size.toNat, none⟩ : CacheBuf)) (did, channel)
        = some ⟨[], buffer_size.toNat, none⟩ := alookup_aset_self ..
    have hrun2 := start_run_cached env
      (⟨aset s0.camera_cache (did, channel) ⟨[], buffer_size.toNat, none⟩,
        einsert s0.camera_cache_events (did, channel),
        aset insts did
          { cam with channels := sinsert cam.channels channel,
                     reg_ids := aset cam.reg_ids channel s0.nextReg },
        s0.nextReg + 1⟩ : ServerState)
      did channel pin buffer_size info _ _ ⟨[], buffer_size.toNat, none⟩
      hbs hauth hcams hch hstable hclook
    constructor
    · rw [hrun1]
      exact hrun2
    · intro hcc hci
      obtain ⟨stc, base, hcamdef, hinsts, -, hcase⟩ :=
        getOrCreate_ok_inv _ _ _ _ _ _ hg
      rcases hcase with ⟨hsome, -⟩ | ⟨-, hstc, hbase⟩
      · rw [hci] at hsome
        exact absurd hsome (by simp)
      have hch0 : cam.channels = [] := by
        rw [hcamdef, instanceUpdate_channels, hstc]
      have hrg0 : cam.reg_ids = [] := by
        rw [hcamdef, instanceUpdate_regIds, hstc]
      have hlb : alookup base did = some stc := by
        rw [hbase]; exact alookup_aset_self ..
      have hb1 : countKey base did = 1 := by
        rw [hbase]; exact countKey_aset_none _ _ _ hci
      have hli : alookup insts did = some cam := by
        rw [hinsts]; exact alookup_aset_self ..
      have hi1 : countKey insts did = 1 := by
        rw [hinsts, countKey_aset_some _ _ _ _ hlb, hb1]
      constructor
      · rw [hrun1]
        exact countKey_aset_none _ _ _ hc0
      · rw [hrun1]
        refine ⟨_, alookup_aset_self .., ?_, ?_, ?_⟩
        · rw [countKey_aset_some _ _ _ _ hli, hi1]
        · simp [sinsert, hch0]
        · simp [aset, hrg0]
  · -- the buffer already existed: both calls leave the cache untouched
    have hrun1 := start_run_cached env s0 did channel pin buffer_size info insts
      cam buf0 hbs hauth hcams hch hg hc0
    have hli : alookup insts did = some cam := getOrCreate_ok_lookup _ _ _ _ _ _ hg
    have hstable := getOrCreate_stable insts did pin cam hli hstarted hpinc
    have hrun2 := start_run_cached env ({ s0 with camera_instances := insts })
      did channel pin buffer_size info insts cam buf0 hbs hauth hcams hch
      hstable hc0
    constructor
    · rw [hrun1]
      exact hrun2
    · intro hcc hci
      exact absurd hcc (by simp)

/-- Witness for C5: starting channel 0 of "cam0" twice from the empty
state is a no-op the second time and leaves exactly one buffer and one
registration. -/
theorem start_camera_cache_idempotent_witness :
    start_camera_cache envB (start_camera_cache envB initState "cam0" 0 none 30).1
        "cam0" 0 none 30
      = ((start_camera_cache envB initState "cam0" 0 none 30).1, .ok "started") ∧
    countKey (start_camera_cache envB initState "cam0" 0 none 30).1.camera_cache
        ("cam0", 0) = 1 := by
  have h := start_camera_cache_idempotent envB initState "cam0" 0 none 30
    "started" (by decide)
  exact ⟨h.1, (h.2 rfl rfl).1⟩

/-- C6 counterexample: a camera whose reported channel count is 0 accepts
channel 0 (the code substitutes `channel_count or 1`), although channel 0
lies outside `[0, channelCount) = [0, 0)` — the snapshot call succeeds
instead of failing with the invalid-channel error. -/
theorem invalid_channel_counterexample :
    ((0:Int) < 0 ∨ (0:Int) ≥ (0:Int)) ∧
    (get_camera_snapshot ⟨true, [("c", ⟨some 0⟩)]⟩ ⟨none, some ([1], 5)⟩ initState
        "c" 0 none).2 = .ok ([1], 5) :=
  ⟨by decide, by decide⟩

/-- C6 (amended): with an authenticated client, an existing camera, and
valid duration/fps/buffer-size arguments, `get_camera_snapshot`,
`record_camera_clip` and `start_camera_cache` fail with the
invalid-channel error exactly when the channel is outside
`[0, channel_count or 1)`: a missing or zero channel count is replaced
by 1 before the bound check. -/
theorem invalid_channel_iff (env : CamEnv) (senv : SnapEnv) (renv : RecordEnv)
    (st : ServerState) (did : String) (channel : Int) (pin : Option String)
    (info : CameraInfo) (duration fps buffer_size : Int)
    (hauth : env.auth = true) (hcam : alookup env.cameras did = some info)
    (hd : 0 < duration) (hf : 0 < fps) (hbs : 0 < buffer_size) :
    ((get_camera_snapshot env senv st did channel pin).2 = .error .invalidChannel
        ↔ (channel < 0 ∨ orOne info.channel_count ≤ channel)) ∧
    ((record_camera_clip env renv st did channel duration fps pin).2.2
        = .error .invalidChannel
        ↔ (channel < 0 ∨ orOne info.channel_count ≤ channel)) ∧
    ((start_camera_cache env st did channel pin buffer_size).2
        = .error .invalidChannel
        ↔ (channel < 0 ∨ orOne info.channel_count ≤ channel)) := by
  by_cases hc : channel < 0 ∨ orOne info.channel_count ≤ channel
  · have h1 : (get_camera_snapshot env senv st did channel pin).2
        = .error .invalidChannel := by
      simp only [get_camera_snapshot]
      rw [if_neg (not_not_intro hauth)]
      simp only [hcam]
      rw [if_pos hc]
    have h2 : (record_camera_clip env renv st did channel duration fps pin).2.2
        = .error .invalidChannel := by
      simp only [record_camera_clip]
      rw [if_neg (by omega), if_neg (by omega), if_neg (not_not_intro hauth)]
      simp only [hcam]
      rw [if_pos hc]
    have h3 : (start_camera_cache env st did channel pin buffer_size).2
        = .error .invalidChannel := by
      rw [start_camera_cache, if_neg (by omega)]
      simp only [_start_camera_cache]
      rw [if_neg (not_not_intro hauth)]
      simp only [hcam]
      rw [if_pos hc]
    exact ⟨iff_of_true h1 hc, iff_of_true h2 hc, iff_of_true h3 hc⟩
  · have h1 : (get_camera_snapshot env senv st did channel pin).2
        ≠ .error .invalidChannel := by
      simp only [get_camera_snapshot]
      rw [if_neg (not_not_intro hauth)]
      simp only [hcam]
      rw [if_neg hc]
      rcases hlk : alookup st.camera_cache (did, channel) with - | cache
      · simp only [hlk]
        rcases hg : _get_or_create_camera_instance st.camera_instances did pin true
          with ⟨insts, r⟩
        rcases r with e | cam
        · have he : e = .pinMismatch := getOrCreate_error_is_pinMismatch _ _ _ _ _ _ hg
          subst he
          simp [hg]
        · simp only [hg]
          rcases hos : senv.oneShot with - | fr <;> simp [hos]
      · simp only [hlk]
        by_cases hfr : cache.frames = []
        · rw [if_pos hfr]
          rcases hw : senv.cachedWait with - | c2
          · simp [hw]
          · simp only [hw]
            rcases hl2 : c2.frames.getLast? with - | fr <;> simp [hl2]
        · rw [if_neg hfr]
          rcases hl2 : cache.frames.getLast? with - | fr <;> simp [hl2]
    have h2 : (record_camera_clip env renv st did channel duration fps pin).2.2
        ≠ .error .invalidChannel := by
      simp only [record_camera_clip]
      rw [if_neg (by omega), if_neg (by omega), if_neg (not_not_intro hauth)]
      simp only [hcam]
      rw [if_neg hc]
      rcases hg : _get_or_create_camera_instance st.camera_instances did pin
          (!(alookup st.camera_cache (did, channel)).isSome) with ⟨insts, r⟩
      rcases r with e | cam
      · have he : e = .pinMismatch := getOrCreate_error_is_pinMismatch _ _ _ _ _ _ hg
        subst he
        simp [hg]
      · simp only [hg]
        split
        · simp
        · split
          · simp
          · split
            · simp
            · split <;> simp
    have h3 : (start_camera_cache env st did channel pin buffer_size).2
        ≠ .error .invalidChannel := by
      rw [start_camera_cache, if_neg (by omega)]
      simp only [_start_camera_cache]
      rw [if_neg (not_not_intro hauth)]
      simp only [hcam]
      rw [if_neg hc]
      rcases hg : _get_or_create_camera_instance st.camera_instances did pin true
        with ⟨insts, r⟩
      rcases r with e | cam
      · have he : e = .pinMismatch := getOrCreate_error_is_pinMismatch _ _ _ _ _ _ hg
        subst he
        simp [hg]
      · simp only [hg]
        rcases hlk : alookup st.camera_cache (did, channel) with - | buf <;>
          simp [hlk]
    exact ⟨iff_of_false h1 hc, iff_of_false h2 hc, iff_of_false h3 hc⟩

/-- Witness for C6 (amended) at channel 5 of a two-channel camera. -/
theorem invalid_channel_iff_witness :
    (get_camera_snapshot envB ⟨none, none⟩ initState "cam0" 5 none).2
        = .error .invalidChannel ↔ ((5:Int) < 0 ∨ orOne (some 2) ≤ 5) :=
  (invalid_channel_iff envB ⟨none, none⟩ ⟨[], 0, true, none⟩ initState "cam0" 5
    none ⟨some 2⟩ 2 10 30 rfl rfl (by decide) (by decide) (by decide)).1

end MiniMiloco
